import Mathlib

/-!
Shallow embedding of the Shopify-Streamline-System companion script
(src/main.py and src/config.py) for checking the natural-language
specification against the code.

Python values that flow through the script (parsed JSON, the flat field
mapping, request payloads) are embedded as the inductive `PyVal`, with
Python truthiness (`PyVal.truthy`), the `x or y` idiom (`pyOr`),
`dict.get` (`dictGetD` / `PyVal.get`) and `float(...)` (`pyFloat`).
Exceptions are embedded as `Except String`: a `.error` value is a Python
exception propagating out of the translated expression.  Outbound HTTP and
SMTP traffic is abstracted by a `CallOutcome` oracle per integration: the
adapter either never reaches the network (configuration or precondition
short-circuit) or performs exactly one call whose outcome the oracle
supplies.  Every adapter also reports the list of payloads it posted, so
"performs no outbound call" is the statement that this list is empty.
-/

/-- A Python/JSON value as the script manipulates it. `none` is Python
`None` (JSON null). -/
inductive PyVal where
  | none : PyVal
  | str : String → PyVal
  | num : Rat → PyVal
  | bool : Bool → PyVal
  | dict : List (String × PyVal) → PyVal
  | list : List PyVal → PyVal

/-- Python truthiness of a value: `None`, `0`, `""`, `False` and empty
containers are falsy, everything else is truthy. -/
def PyVal.truthy : PyVal → Bool
  | .none => false
  | .str s => !s.isEmpty
  | .num q => decide (q ≠ 0)
  | .bool b => b
  | .dict fs => !fs.isEmpty
  | .list xs => !xs.isEmpty

/-- The Python idiom `a or b`: `a` when truthy, else `b`. -/
def pyOr (a b : PyVal) : PyVal := if a.truthy then a else b

/-- `d.get(k, default)` on a dict given as an association list. -/
def dictGetD (fs : List (String × PyVal)) (k : String) (d : PyVal) : PyVal :=
  (fs.lookup k).getD d

/-- `d.get(k)` on a dict: default `None`. -/
def dictGet (fs : List (String × PyVal)) (k : String) : PyVal :=
  dictGetD fs k PyVal.none

/-- The method call `v.get(k)`: defined on dicts, an `AttributeError` on
every other value (as in Python, where e.g. a string has no `get`). -/
def PyVal.get (v : PyVal) (k : String) : Except String PyVal :=
  match v with
  | .dict fs => .ok (dictGet fs k)
  | _ => .error "AttributeError: get"

/-- The digits of a numeric literal read as a natural number. -/
def natOfDigits (l : List Char) : Nat :=
  l.foldl (fun a c => a * 10 + (c.toNat - 48)) 0

/-- Parse of a plain decimal literal (optional sign, integer part, optional
fractional part), the fragment of the grammar Python `float(str)` accepts
that the order payloads use; a string outside it does not parse. -/
def parseDecimal (s : String) : Option Rat :=
  let signAndRest : Rat × List Char :=
    match s.toList with
    | '-' :: r => (-1, r)
    | '+' :: r => (1, r)
    | r => (1, r)
  let sgn := signAndRest.1
  let rest := signAndRest.2
  let ip := rest.takeWhile Char.isDigit
  match rest.dropWhile Char.isDigit with
  | [] => if ip.isEmpty then Option.none else some (sgn * (natOfDigits ip : Rat))
  | '.' :: fp =>
      if fp.all Char.isDigit && !(ip.isEmpty && fp.isEmpty) then
        some (sgn * ((natOfDigits ip : Rat) + (natOfDigits fp : Rat) / ((10 : Rat) ^ fp.length)))
      else Option.none
  | _ => Option.none

/-- Python `float(x)`: numbers pass through, booleans become 0/1, strings
must parse as a decimal literal (`ValueError` otherwise), every other
value is a `TypeError`. -/
def pyFloat : PyVal → Except String Rat
  | .num q => .ok q
  | .bool b => .ok (if b then 1 else 0)
  | .str s =>
      match parseDecimal s with
      | some q => .ok q
      | Option.none => .error "ValueError: could not convert string to float"
  | _ => .error "TypeError: float() argument"

/-- Rendering of a rational as the embedding of numeric string formatting. -/
def ratStr (q : Rat) : String :=
  if q.den = 1 then toString q.num else toString q.num ++ "/" ++ toString q.den

/-- Python `str(x)` / f-string interpolation, to the detail the payloads
need (container rendering abbreviated; no payload property depends on it). -/
def pyStr : PyVal → String
  | PyVal.none => "None"
  | .str s => s
  | .num q => ratStr q
  | .bool b => if b then "True" else "False"
  | .dict _ => "dict"
  | .list _ => "list"

/-- Python `s.lower()`: defined on strings, an `AttributeError` on every
other value. -/
def pyLower : PyVal → Except String String
  | .str s => .ok s.toLower
  | _ => .error "AttributeError: lower"

/-- Exception-propagating sequencing: run `x`; a raised exception
propagates, a value feeds the continuation. -/
def ebind (x : Except String α) (k : α → Except String β) : Except String β :=
  match x with
  | .error e => .error e
  | .ok a => k a

@[simp] theorem ebind_ok (a : α) (k : α → Except String β) : ebind (.ok a) k = k a := rfl

@[simp] theorem ebind_err (e : String) (k : α → Except String β) :
    ebind (Except.error e) k = Except.error e := rfl

/-- The flat mapping `extract_fields` returns (the n8n "Set fields" node),
fields listed in the order the source dict literal evaluates them. -/
structure NormalizedFields where
  customer_phone : PyVal
  customer_zipcode : PyVal
  order_value : Rat
  customer_firstname : PyVal
  customer_lastname : PyVal
  customer_email : PyVal
  customer_country : PyVal
  customer_street : PyVal
  customer_city : PyVal
  customer_province : PyVal
  order_number : PyVal
  order_status_url : PyVal
  currency : PyVal
  processed_at : PyVal

/-- The `customer_phone` entry of `extract_fields`:
`(customer.get("default_address") or {}).get("phone") if
customer.get("default_address") else None`.  Python evaluates the
condition first; the truthy branch re-reads the same key of the same dict,
which returns the identical value, so it is bound once here. -/
def get_phone (customer : PyVal) : Except String PyVal :=
  ebind (customer.get "default_address") fun da =>
    if da.truthy then (pyOr da (PyVal.dict [])).get "phone"
    else .ok PyVal.none

/-- `extract_fields(order_json)` of src/main.py: the two `or {}` guards on
the nested objects, then the dict literal entry by entry in source order;
any Python exception a lookup or conversion raises propagates. -/
def extract_fields (order_json : List (String × PyVal)) : Except String NormalizedFields :=
  let customer := pyOr (dictGetD order_json "customer" (PyVal.dict [])) (PyVal.dict [])
  let shipping := pyOr (dictGetD order_json "shipping_address" (PyVal.dict [])) (PyVal.dict [])
  ebind (get_phone customer) fun customer_phone =>
  ebind (shipping.get "zip") fun customer_zipcode =>
  ebind (pyFloat (pyOr (dictGetD order_json "current_total_price" (PyVal.num 0)) (PyVal.num 0)))
    fun order_value =>
  ebind (customer.get "first_name") fun fn =>
  ebind (customer.get "last_name") fun ln =>
  ebind (customer.get "email") fun em =>
  ebind (shipping.get "country") fun co =>
  ebind (shipping.get "address1") fun st =>
  ebind (shipping.get "city") fun ci =>
  ebind (shipping.get "province") fun pv =>
  .ok {
    customer_phone := customer_phone
    customer_zipcode := customer_zipcode
    order_value := order_value
    customer_firstname := pyOr fn (PyVal.str "")
    customer_lastname := pyOr ln (PyVal.str "")
    customer_email := pyOr em (PyVal.str "")
    customer_country := pyOr co (PyVal.str "")
    customer_street := pyOr st (PyVal.str "")
    customer_city := pyOr ci (PyVal.str "")
    customer_province := pyOr pv (PyVal.str "")
    order_number := pyOr (dictGet order_json "order_number") (dictGet order_json "id")
    order_status_url := dictGet order_json "order_status_url"
    currency := dictGet order_json "currency"
    processed_at := dictGet order_json "processed_at" }

/-! ## Configuration (src/config.py and the module-level constants of src/main.py)

Each credential is an environment value: `Option String`, where `none` is an
unset variable and a set variable may still be the empty string; Python
truthiness of such a value is `optTruthy`.  The spec (section 9) asks for the
module-level configuration to be one explicit structure passed in, which is
how the embedding threads it. -/

structure Config where
  HARVEST_TOKEN : Option String
  HARVEST_ACCOUNT_ID : Option String
  TRELLO_KEY : Option String
  TRELLO_TOKEN : Option String
  TRELLO_LIST_ID : Option String
  ZOHO_ACCESS_TOKEN : Option String
  MAILCHIMP_API_KEY : Option String
  MAILCHIMP_LIST_ID : Option String
  MAILCHIMP_SERVER : Option String
  GMAIL_SMTP_SERVER : Option String
  GMAIL_SMTP_PORT : Option String
  GMAIL_SMTP_USER : Option String
  GMAIL_SMTP_PASS : Option String
  COUPON_THRESHOLD : Rat
  COUPON_CODE : String
  MAILCHIMP_HIGH_ORDER_TAG : String

/-- Truthiness of an environment value: falsy when unset or empty. -/
def optTruthy : Option String → Bool
  | Option.none => false
  | some s => !s.isEmpty

/-- The value of an environment variable where the code uses it after a
truthiness check (there it is a set, non-empty string). -/
def optStr (o : Option String) : String := o.getD ""

/-- The outcome the network oracle assigns to one outbound call: `ok` is a
2xx response with a decoded JSON body, `err` is everything the adapter's
try/except catches (transport error, `raise_for_status` on a non-2xx
response, or an undecodable body), carrying the exception's description. -/
inductive CallOutcome where
  | ok : PyVal → CallOutcome
  | err : String → CallOutcome

/-- The uniform result dicts of the adapters as the spec's tagged variant:
`simulated` is a dict with `simulated: True` and a reason, `success` a dict
with `simulated: False` and the response payload, `failure` a dict with
`simulated: False` and an error description.  The constructors are pairwise
distinct, which is the distinguishability the spec requires of callers. -/
inductive AdapterResult where
  | simulated : String → AdapterResult
  | success : PyVal → AdapterResult
  | failure : String → AdapterResult

/-! ## Integration adapters (src/main.py lines 75-214)

Each adapter takes the configuration, the network oracle outcome for its one
potential call, and the flat fields; it returns its result together with the
list of payloads it posted (empty when it never reached the network). -/

/-- The invoice payload `create_harvest_invoice` posts. -/
def harvest_payload (cfg : Config) (fields : NormalizedFields) : PyVal :=
  .dict [
    ("client_id", .str (optStr cfg.HARVEST_ACCOUNT_ID)),
    ("currency", fields.currency),
    ("issue_date", fields.processed_at),
    ("purchase_order", .str (pyStr fields.order_number)),
    ("line_items", .list [
      .dict [
        ("kind", .str "Service"),
        ("description", .str ("Shopify Order " ++ pyStr fields.order_number)),
        ("quantity", .num 1),
        ("unit_price", .num fields.order_value)]])]

/-- `create_harvest_invoice(fields)`: simulated unless both the token and
the account id are truthy, otherwise exactly one POST whose outcome the
oracle decides; any exception of the try block becomes the failure dict. -/
def create_harvest_invoice (cfg : Config) (net : CallOutcome) (fields : NormalizedFields) :
    AdapterResult × List PyVal :=
  if !(optTruthy cfg.HARVEST_TOKEN && optTruthy cfg.HARVEST_ACCOUNT_ID) then
    (.simulated "Harvest not configured. Invoice not created.", [])
  else
    let payload := harvest_payload cfg fields
    match net with
    | .ok resp => (.success resp, [payload])
    | .err e => (.failure e, [payload])

/-- The query parameters `create_trello_card` posts. -/
def trello_params (cfg : Config) (fields : NormalizedFields) : PyVal :=
  .dict [
    ("key", .str (optStr cfg.TRELLO_KEY)),
    ("token", .str (optStr cfg.TRELLO_TOKEN)),
    ("idList", .str (optStr cfg.TRELLO_LIST_ID)),
    ("name", .str ("Shopify order " ++ pyStr fields.order_number)),
    ("desc", .str ("Order URL: " ++ pyStr (pyOr fields.order_status_url (PyVal.str "N/A"))))]

/-- `create_trello_card(fields)`: simulated unless key, token and list id
are all truthy, otherwise exactly one POST decided by the oracle. -/
def create_trello_card (cfg : Config) (net : CallOutcome) (fields : NormalizedFields) :
    AdapterResult × List PyVal :=
  if !(optTruthy cfg.TRELLO_KEY && optTruthy cfg.TRELLO_TOKEN && optTruthy cfg.TRELLO_LIST_ID) then
    (.simulated "Trello not configured. Card not created.", [])
  else
    let payload := trello_params cfg fields
    match net with
    | .ok resp => (.success resp, [payload])
    | .err e => (.failure e, [payload])

/-- The `contact_data` record `upsert_zoho_contact` builds: every field read
with an `or` default, so a null field becomes an empty string (and the last
name "Unknown") before it reaches the outbound payload. -/
def zoho_contact_data (fields : NormalizedFields) : List (String × PyVal) :=
  [("Last_Name", pyOr fields.customer_lastname (PyVal.str "Unknown")),
   ("First_Name", pyOr fields.customer_firstname (PyVal.str "")),
   ("Email", pyOr fields.customer_email (PyVal.str "")),
   ("Phone", pyOr fields.customer_phone (PyVal.str "")),
   ("Mailing_City", pyOr fields.customer_city (PyVal.str "")),
   ("Mailing_Street", pyOr fields.customer_street (PyVal.str "")),
   ("Mailing_Zip", pyOr fields.customer_zipcode (PyVal.str "")),
   ("Mailing_Country", pyOr fields.customer_country (PyVal.str ""))]

/-- The JSON body `upsert_zoho_contact` posts. -/
def zoho_payload (fields : NormalizedFields) : PyVal :=
  .dict [
    ("data", .list [.dict (zoho_contact_data fields)]),
    ("duplicate_check_fields", .list [.str "Email"])]

/-- `upsert_zoho_contact(fields)`: simulated unless the access token is
truthy, otherwise exactly one POST decided by the oracle. -/
def upsert_zoho_contact (cfg : Config) (net : CallOutcome) (fields : NormalizedFields) :
    AdapterResult × List PyVal :=
  if !(optTruthy cfg.ZOHO_ACCESS_TOKEN) then
    (.simulated "Zoho not configured. Contact not upserted.", [])
  else
    let payload := zoho_payload fields
    match net with
    | .ok resp => (.success resp, [payload])
    | .err e => (.failure e, [payload])

/-- The tagging request `mailchimp_add_tag` posts (the subscriber-hash in
the URL is computed from the lowercased email; the hash itself is abstracted
but its input, the lowercased email, is kept, because computing it is the
one step of the adapter outside the try block). -/
def mailchimp_payload (emailLower : String) (tag : String) : PyVal :=
  .dict [
    ("member_email", .str emailLower),
    ("tags", .list [.dict [("name", .str tag), ("status", .str "active")]])]

/-- `mailchimp_add_tag(fields, tag)`: simulated unless api key, list id and
server region are all truthy; then simulated with "No email provided." when
the email field is falsy; then `email.lower()` runs OUTSIDE the try block,
so on a truthy non-string email the `AttributeError` propagates out of the
adapter (the `.error` case); otherwise exactly one POST decided by the
oracle. -/
def mailchimp_add_tag (cfg : Config) (net : CallOutcome) (fields : NormalizedFields)
    (tag : String) : Except String (AdapterResult × List PyVal) :=
  if !(optTruthy cfg.MAILCHIMP_API_KEY && optTruthy cfg.MAILCHIMP_LIST_ID &&
       optTruthy cfg.MAILCHIMP_SERVER) then
    .ok (.simulated "Mailchimp not configured. Tag not added.", [])
  else
    let email := fields.customer_email
    if !email.truthy then
      .ok (.simulated "No email provided.", [])
    else
      ebind (pyLower email) fun emailLower =>
        let payload := mailchimp_payload emailLower tag
        match net with
        | .ok resp => .ok (.success resp, [payload])
        | .err e => .ok (.failure e, [payload])

/-- The message `send_email_smtp` hands to `sendmail`. -/
def mime_message (to_email : PyVal) (subject message : String) : PyVal :=
  .dict [("to", to_email), ("subject", .str subject), ("body", .str message)]

/-- `send_email_smtp(to_email, subject, message)`: simulated unless server,
port, user and credential are all truthy, otherwise exactly one SMTP
delivery decided by the oracle; the success dict of this adapter carries the
fixed message "Email sent via SMTP" rather than a response body. -/
def send_email_smtp (cfg : Config) (net : CallOutcome) (to_email : PyVal)
    (subject message : String) : AdapterResult × List PyVal :=
  if !(optTruthy cfg.GMAIL_SMTP_SERVER && optTruthy cfg.GMAIL_SMTP_PORT &&
       optTruthy cfg.GMAIL_SMTP_USER && optTruthy cfg.GMAIL_SMTP_PASS) then
    (.simulated "SMTP not configured. Email not sent.", [])
  else
    let payload := mime_message to_email subject message
    match net with
    | .ok _ => (.success (.str "Email sent via SMTP"), [payload])
    | .err e => (.failure e, [payload])

/-! ## Orchestration (src/main.py lines 220-268) -/

/-- The coupon email body of the high-value branch. -/
def coupon_message (cfg : Config) (fields : NormalizedFields) : String :=
  "Hi " ++ pyStr fields.customer_firstname ++
  ",\n\nThank you for your order! Here\x27s a 15% coupon code to use for your next order: " ++
  cfg.COUPON_CODE ++ "\n\nBest,\nShop Owner"

/-- The thank-you email body of the low-value branch. -/
def thankyou_message (fields : NormalizedFields) : String :=
  "Hi " ++ pyStr fields.customer_firstname ++
  ",\n\nThank you for your order! We\x27re getting it ready for shipping it to you.\n\nBest,\nShop Owner"

/-- The network oracle for one order: one potential outbound call per
integration. -/
structure Net where
  harvest : CallOutcome
  trello : CallOutcome
  zoho : CallOutcome
  mailchimp : CallOutcome
  smtp : CallOutcome

/-- The outbound payloads actually posted while processing one order,
per integration (empty list = that integration made no outbound call). -/
structure Calls where
  harvest : List PyVal
  trello : List PyVal
  zoho : List PyVal
  smtp : List PyVal
  mailchimp : List PyVal

/-- The aggregate result dict `process_order` builds: the extracted fields,
one adapter result per integration run, and exactly one of the two email
branches filled in (`none` embeds the key being absent from the dict).
The two wall-clock timestamps of the source are pure I/O and are omitted. -/
structure ProcessingResult where
  fields : NormalizedFields
  harvest : AdapterResult
  trello : AdapterResult
  zoho : AdapterResult
  coupon_email : Option AdapterResult
  mailchimp : Option AdapterResult
  thankyou_email : Option AdapterResult

/-- `process_order(order_json)`: extract fields (an exception there
propagates), run the invoice, task-card and CRM adapters in sequence, then
branch on `order_value > COUPON_THRESHOLD`: strictly greater sends the
coupon email and then tags Mailchimp (an exception from the tagging adapter
propagates and loses the result dict); otherwise sends the thank-you email.
`fields.get("order_value", 0) or 0` is the always-present numeric field, so
it is read directly (`x or 0` is the identity on numbers up to truthiness,
and `0 or 0` is `0`). -/
def process_order (cfg : Config) (net : Net) (order_json : List (String × PyVal)) :
    Except String (ProcessingResult × Calls) :=
  match extract_fields order_json with
  | .error e => .error e
  | .ok fields =>
    let harvest_result := create_harvest_invoice cfg net.harvest fields
    let trello_result := create_trello_card cfg net.trello fields
    let zoho_result := upsert_zoho_contact cfg net.zoho fields
    let order_value := fields.order_value
    let to_email := pyOr fields.customer_email (PyVal.str "")
    if order_value > cfg.COUPON_THRESHOLD then
      let send_res := send_email_smtp cfg net.smtp to_email "Your Shopify order - coupon"
        (coupon_message cfg fields)
      match mailchimp_add_tag cfg net.mailchimp fields cfg.MAILCHIMP_HIGH_ORDER_TAG with
      | .error e => .error e
      | .ok mc_res =>
        .ok ({ fields := fields, harvest := harvest_result.1, trello := trello_result.1,
               zoho := zoho_result.1, coupon_email := some send_res.1,
               mailchimp := some mc_res.1, thankyou_email := Option.none },
             { harvest := harvest_result.2, trello := trello_result.2, zoho := zoho_result.2,
               smtp := send_res.2, mailchimp := mc_res.2 })
    else
      let send_res := send_email_smtp cfg net.smtp to_email "Your Shopify order - thank you"
        (thankyou_message fields)
      .ok ({ fields := fields, harvest := harvest_result.1, trello := trello_result.1,
             zoho := zoho_result.1, coupon_email := Option.none,
             mailchimp := Option.none, thankyou_email := some send_res.1 },
           { harvest := harvest_result.2, trello := trello_result.2, zoho := zoho_result.2,
             smtp := send_res.2, mailchimp := [] })

/-! ## Concrete instances used by scenario claims and witnesses -/

/-- The configuration of an unconfigured deployment: no credential set; the
SMTP server and port keep the defaults config.py supplies
("smtp.gmail.com", "587"), and the thresholds keep their defaults
(50, "COUPON15", "high-order"). -/
def noConfig : Config :=
  ⟨Option.none, Option.none, Option.none, Option.none, Option.none, Option.none,
   Option.none, Option.none, Option.none,
   some "smtp.gmail.com", some "587", Option.none, Option.none,
   50, "COUPON15", "high-order"⟩

/-- A deployment with every integration configured. -/
def fullConfig : Config :=
  ⟨some "ht", some "ha", some "tk", some "tt", some "tl", some "zt",
   some "mk", some "ml", some "us1",
   some "smtp.gmail.com", some "587", some "user@x.com", some "pw",
   50, "COUPON15", "high-order"⟩

/-- A deployment where only Mailchimp is configured. -/
def mailchimpOnlyConfig : Config :=
  ⟨Option.none, Option.none, Option.none, Option.none, Option.none, Option.none,
   some "mk", some "ml", some "us1",
   some "smtp.gmail.com", some "587", Option.none, Option.none,
   50, "COUPON15", "high-order"⟩

/-- A network oracle on which every attempted call fails in transport. -/
def netDown : Net :=
  ⟨.err "offline", .err "offline", .err "offline", .err "offline", .err "offline"⟩

/-- The order of the spec's walked-through scenario (section 8). -/
def anaOrder : List (String × PyVal) :=
  [("current_total_price", PyVal.str "75.00"),
   ("customer", PyVal.dict [("first_name", PyVal.str "Ana"), ("email", PyVal.str "a@x.com")]),
   ("shipping_address", PyVal.dict [("zip", PyVal.str "1000")])]

/-- What `extract_fields` returns on `anaOrder`. -/
def anaFields : NormalizedFields :=
  ⟨PyVal.none, PyVal.str "1000", 75, PyVal.str "Ana", PyVal.str "", PyVal.str "a@x.com",
   PyVal.str "", PyVal.str "", PyVal.str "", PyVal.str "",
   PyVal.none, PyVal.none, PyVal.none, PyVal.none⟩

/-- The same order with the total exactly at the threshold. -/
def order50 : List (String × PyVal) :=
  [("current_total_price", PyVal.str "50.00"),
   ("customer", PyVal.dict [("first_name", PyVal.str "Ana"), ("email", PyVal.str "a@x.com")]),
   ("shipping_address", PyVal.dict [("zip", PyVal.str "1000")])]

/-- What `extract_fields` returns on `order50`. -/
def fields50 : NormalizedFields :=
  ⟨PyVal.none, PyVal.str "1000", 50, PyVal.str "Ana", PyVal.str "", PyVal.str "a@x.com",
   PyVal.str "", PyVal.str "", PyVal.str "", PyVal.str "",
   PyVal.none, PyVal.none, PyVal.none, PyVal.none⟩

/-- A high-value order whose customer email is a (truthy) number, the
malformed shape on which the Mailchimp tagging step raises. -/
def badEmailOrder : List (String × PyVal) :=
  [("current_total_price", PyVal.str "75.00"),
   ("customer", PyVal.dict [("email", PyVal.num 5)])]

/-- What `extract_fields` returns on the empty order dict (and on any order
whose customer and shipping objects are null or absent). -/
def nfEmpty : NormalizedFields :=
  ⟨PyVal.none, PyVal.none, 0, PyVal.str "", PyVal.str "", PyVal.str "",
   PyVal.str "", PyVal.str "", PyVal.str "", PyVal.str "",
   PyVal.none, PyVal.none, PyVal.none, PyVal.none⟩

/-- A flat field record whose customer email is a truthy non-string value,
reachable from `badEmailOrder` through `extract_fields`. -/
def badEmailFields : NormalizedFields :=
  ⟨PyVal.none, PyVal.none, 75, PyVal.str "", PyVal.str "", PyVal.num 5,
   PyVal.str "", PyVal.str "", PyVal.str "", PyVal.str "",
   PyVal.none, PyVal.none, PyVal.none, PyVal.none⟩

/-! ## Helper lemmas -/

theorem pyOr_of_falsy (a b : PyVal) (h : a.truthy = false) : pyOr a b = b := by
  simp [pyOr, h]

theorem pyOr_of_truthy (a b : PyVal) (h : a.truthy = true) : pyOr a b = a := by
  simp [pyOr, h]

@[simp] theorem PyVal.get_dict (fs : List (String × PyVal)) (k : String) :
    PyVal.get (PyVal.dict fs) k = .ok (dictGet fs k) := rfl

/-- The tagging adapter returns (rather than raising) whenever the customer
email is a string or falsy. -/
theorem mailchimp_total (cfg : Config) (net : CallOutcome) (f : NormalizedFields)
    (tag : String)
    (he : (∃ t, f.customer_email = PyVal.str t) ∨ f.customer_email.truthy = false) :
    ∃ r, mailchimp_add_tag cfg net f tag = .ok r := by
  cases hg : (optTruthy cfg.MAILCHIMP_API_KEY && optTruthy cfg.MAILCHIMP_LIST_ID &&
      optTruthy cfg.MAILCHIMP_SERVER) with
  | false => exact ⟨(.simulated "Mailchimp not configured. Tag not added.", []),
      by simp [mailchimp_add_tag, hg]⟩
  | true =>
    cases hemail : f.customer_email.truthy with
    | false => exact ⟨(.simulated "No email provided.", []),
        by simp [mailchimp_add_tag, hg, hemail]⟩
    | true =>
      rcases he with ⟨t, ht⟩ | hfalse
      · rw [ht] at hemail
        cases net with
        | ok resp => exact ⟨(.success resp, [mailchimp_payload t.toLower tag]),
            by simp [mailchimp_add_tag, hg, ht, hemail, pyLower]⟩
        | err e => exact ⟨(.failure e, [mailchimp_payload t.toLower tag]),
            by simp [mailchimp_add_tag, hg, ht, hemail, pyLower]⟩
      · rw [hfalse] at hemail; cases hemail

/-! ## The claims -/

/-- Claim C5: each of the five adapters, when the credentials or identifiers
its own integration requires are absent (falsy) — independently of how the
other integrations are configured — returns the `simulated` result
immediately with its designed reason and performs no outbound call (its
posted-payload list is empty); and a `simulated` result is distinguishable
from both `success` and `failure`.  Each conjunct carries only its own
adapter's gate, so a partially configured deployment is covered
adapter by adapter. -/
theorem C5_unconfigured_simulated (cfg : Config) (f : NormalizedFields)
    (nh nt nz nm ns : CallOutcome) (tag : String) (dest : PyVal)
    (subject message : String) :
    ((optTruthy cfg.HARVEST_TOKEN && optTruthy cfg.HARVEST_ACCOUNT_ID) = false →
      create_harvest_invoice cfg nh f =
        (.simulated "Harvest not configured. Invoice not created.", [])) ∧
    ((optTruthy cfg.TRELLO_KEY && optTruthy cfg.TRELLO_TOKEN &&
      optTruthy cfg.TRELLO_LIST_ID) = false →
      create_trello_card cfg nt f =
        (.simulated "Trello not configured. Card not created.", [])) ∧
    (optTruthy cfg.ZOHO_ACCESS_TOKEN = false →
      upsert_zoho_contact cfg nz f =
        (.simulated "Zoho not configured. Contact not upserted.", [])) ∧
    ((optTruthy cfg.MAILCHIMP_API_KEY && optTruthy cfg.MAILCHIMP_LIST_ID &&
      optTruthy cfg.MAILCHIMP_SERVER) = false →
      mailchimp_add_tag cfg nm f tag =
        .ok (.simulated "Mailchimp not configured. Tag not added.", [])) ∧
    ((optTruthy cfg.GMAIL_SMTP_SERVER && optTruthy cfg.GMAIL_SMTP_PORT &&
      optTruthy cfg.GMAIL_SMTP_USER && optTruthy cfg.GMAIL_SMTP_PASS) = false →
      send_email_smtp cfg ns dest subject message =
        (.simulated "SMTP not configured. Email not sent.", [])) ∧
    (∀ m p, AdapterResult.simulated m ≠ AdapterResult.success p) ∧
    (∀ m e, AdapterResult.simulated m ≠ AdapterResult.failure e) := by
  refine ⟨fun h1 => ?_, fun h2 => ?_, fun h3 => ?_, fun h4 => ?_, fun h5 => ?_, ?_, ?_⟩
  · simp [create_harvest_invoice, h1]
  · simp [create_trello_card, h2]
  · simp [upsert_zoho_contact, h3]
  · simp [mailchimp_add_tag, h4]
  · simp [send_email_smtp, h5]
  · intro m p h; cases h
  · intro m e h; cases h

/-- Witness for C5 at a partially configured deployment: Mailchimp is
configured (so its gate is not triggered) while Harvest, Trello, Zoho and
SMTP are not, and each unconfigured adapter still simulates on its own. -/
theorem C5_witness :
    (optTruthy mailchimpOnlyConfig.HARVEST_TOKEN &&
     optTruthy mailchimpOnlyConfig.HARVEST_ACCOUNT_ID) = false ∧
    (optTruthy mailchimpOnlyConfig.MAILCHIMP_API_KEY &&
     optTruthy mailchimpOnlyConfig.MAILCHIMP_LIST_ID &&
     optTruthy mailchimpOnlyConfig.MAILCHIMP_SERVER) = true ∧
    create_harvest_invoice mailchimpOnlyConfig (CallOutcome.err "offline") anaFields =
      (.simulated "Harvest not configured. Invoice not created.", []) ∧
    create_trello_card mailchimpOnlyConfig (CallOutcome.err "offline") anaFields =
      (.simulated "Trello not configured. Card not created.", []) ∧
    upsert_zoho_contact mailchimpOnlyConfig (CallOutcome.err "offline") anaFields =
      (.simulated "Zoho not configured. Contact not upserted.", []) ∧
    send_email_smtp mailchimpOnlyConfig (CallOutcome.err "offline") (PyVal.str "a@x.com")
      "s" "m" = (.simulated "SMTP not configured. Email not sent.", []) := by
  have h := C5_unconfigured_simulated mailchimpOnlyConfig anaFields (.err "offline")
    (.err "offline") (.err "offline") (.err "offline") (.err "offline") "high-order"
    (PyVal.str "a@x.com") "s" "m"
  exact ⟨rfl, rfl, h.1 rfl, h.2.1 rfl, h.2.2.1 rfl, h.2.2.2.2.1 rfl⟩

/-- Claim C10: the tagging adapter has a second precondition beyond the
credentials: a falsy (empty or missing) customer email yields the
`simulated` result with no outbound call; with the full Mailchimp
configuration present the reason is exactly "No email provided.", and a
missing email is never reported as `failure` (the result is always some
`simulated`). -/
theorem C10_mailchimp_email_precondition (cfg : Config) (net : CallOutcome)
    (f : NormalizedFields) (tag : String)
    (hemail : f.customer_email.truthy = false) :
    ((optTruthy cfg.MAILCHIMP_API_KEY && optTruthy cfg.MAILCHIMP_LIST_ID &&
      optTruthy cfg.MAILCHIMP_SERVER) = true →
      mailchimp_add_tag cfg net f tag = .ok (.simulated "No email provided.", [])) ∧
    (∃ m, mailchimp_add_tag cfg net f tag = .ok (.simulated m, [])) := by
  cases hg : (optTruthy cfg.MAILCHIMP_API_KEY && optTruthy cfg.MAILCHIMP_LIST_ID &&
      optTruthy cfg.MAILCHIMP_SERVER) with
  | false =>
    refine ⟨fun h => ?_, ⟨"Mailchimp not configured. Tag not added.",
      by simp [mailchimp_add_tag, hg]⟩⟩
    simp at h
  | true =>
    refine ⟨fun _ => ?_, ⟨"No email provided.", ?_⟩⟩ <;>
      simp [mailchimp_add_tag, hg, hemail]

/-- Witness for C10: fully configured Mailchimp, empty email. -/
theorem C10_witness :
    nfEmpty.customer_email.truthy = false ∧
    mailchimp_add_tag fullConfig (CallOutcome.err "offline") nfEmpty "high-order" =
      .ok (.simulated "No email provided.", []) := by
  exact ⟨rfl,
    (C10_mailchimp_email_precondition fullConfig (.err "offline") nfEmpty "high-order" rfl).1 rfl⟩

/-- Counterexample to claim C8 as stated: with Mailchimp fully configured
and a truthy non-string customer email, `mailchimp_add_tag` raises an
`AttributeError` (from `email.lower()`, which the source computes outside
its try block) instead of returning a result: an exception escapes the
adapter boundary. -/
theorem C8_counterexample :
    mailchimp_add_tag fullConfig (CallOutcome.err "offline") badEmailFields "high-order" =
      .error "AttributeError: lower" := by
  with_unfolding_all rfl

/-- Claim C8 (amended): on any transport or non-2xx outcome each configured
adapter returns the `failure` variant carrying the error description and
never raises — with the one exception the counterexample forces: the
Mailchimp tagging adapter raises when the customer email is a truthy
non-string value; when the email is a string or falsy it, too, always
returns a result. -/
theorem C8_failure_on_transport_error (cfg : Config) (f : NormalizedFields) (e : String)
    (net : CallOutcome) (dest : PyVal) (subject message tag s : String) :
    ((optTruthy cfg.HARVEST_TOKEN && optTruthy cfg.HARVEST_ACCOUNT_ID) = true →
      create_harvest_invoice cfg (.err e) f = (.failure e, [harvest_payload cfg f])) ∧
    ((optTruthy cfg.TRELLO_KEY && optTruthy cfg.TRELLO_TOKEN &&
      optTruthy cfg.TRELLO_LIST_ID) = true →
      create_trello_card cfg (.err e) f = (.failure e, [trello_params cfg f])) ∧
    (optTruthy cfg.ZOHO_ACCESS_TOKEN = true →
      upsert_zoho_contact cfg (.err e) f = (.failure e, [zoho_payload f])) ∧
    ((optTruthy cfg.GMAIL_SMTP_SERVER && optTruthy cfg.GMAIL_SMTP_PORT &&
      optTruthy cfg.GMAIL_SMTP_USER && optTruthy cfg.GMAIL_SMTP_PASS) = true →
      send_email_smtp cfg (.err e) dest subject message =
        (.failure e, [mime_message dest subject message])) ∧
    ((optTruthy cfg.MAILCHIMP_API_KEY && optTruthy cfg.MAILCHIMP_LIST_ID &&
      optTruthy cfg.MAILCHIMP_SERVER) = true →
      f.customer_email = PyVal.str s → s.isEmpty = false →
      mailchimp_add_tag cfg (.err e) f tag =
        .ok (.failure e, [mailchimp_payload s.toLower tag])) ∧
    ((∃ t, f.customer_email = PyVal.str t) ∨ f.customer_email.truthy = false →
      ∃ r, mailchimp_add_tag cfg net f tag = .ok r) := by
  refine ⟨fun h1 => ?_, fun h2 => ?_, fun h3 => ?_, fun h4 => ?_,
    fun h5 hs hne => ?_, fun he => mailchimp_total cfg net f tag he⟩
  · simp [create_harvest_invoice, h1]
  · simp [create_trello_card, h2]
  · simp [upsert_zoho_contact, h3]
  · simp [send_email_smtp, h4]
  · simp [mailchimp_add_tag, h5, hs, PyVal.truthy, hne, pyLower]

/-- Witness for C8 at the fully configured deployment with a transport
error everywhere. -/
theorem C8_witness :
    (optTruthy fullConfig.HARVEST_TOKEN && optTruthy fullConfig.HARVEST_ACCOUNT_ID) = true ∧
    anaFields.customer_email = PyVal.str "a@x.com" ∧
    create_harvest_invoice fullConfig (CallOutcome.err "offline") anaFields =
      (.failure "offline", [harvest_payload fullConfig anaFields]) ∧
    upsert_zoho_contact fullConfig (CallOutcome.err "offline") anaFields =
      (.failure "offline", [zoho_payload anaFields]) ∧
    mailchimp_add_tag fullConfig (CallOutcome.err "offline") anaFields "high-order" =
      .ok (.failure "offline", [mailchimp_payload "a@x.com".toLower "high-order"]) := by
  have h := C8_failure_on_transport_error fullConfig anaFields "offline" (.err "offline")
    (PyVal.str "a@x.com") "s" "m" "high-order" "a@x.com"
  exact ⟨rfl, rfl, h.1 rfl, h.2.2.1 rfl,
    h.2.2.2.2.1 rfl rfl rfl⟩

/-- Claim C9: a `customer` or `shipping_address` entry that is present but
null is treated by `extract_fields` exactly as an empty object (the `or`
guard replaces every falsy value by the empty dict), and extraction on such
an order proceeds without raising. -/
theorem C9_null_objects_as_empty :
    (∀ tl : List (String × PyVal),
      extract_fields (("customer", PyVal.none) :: tl) =
      extract_fields (("customer", PyVal.dict []) :: tl)) ∧
    (∀ tl : List (String × PyVal),
      extract_fields (("shipping_address", PyVal.none) :: tl) =
      extract_fields (("shipping_address", PyVal.dict []) :: tl)) ∧
    extract_fields [("customer", PyVal.none), ("shipping_address", PyVal.none)] =
      .ok nfEmpty := by
  refine ⟨fun tl => ?_, fun tl => ?_, ?_⟩
  · with_unfolding_all rfl
  · with_unfolding_all rfl
  · with_unfolding_all rfl

/-- Claim C7: the spec's walked-through scenario: Ana's 75.00 order with no
integration configured yields `simulated` results for invoice, task-card
and CRM, a coupon-email attempt and a Mailchimp tagging attempt (both
simulated), no thank-you entry and no outbound call anywhere; the extracted
value is 75 and strictly exceeds the threshold 50. -/
theorem C7_scenario_ana (net : Net) :
    process_order noConfig net anaOrder =
      .ok ({ fields := anaFields,
             harvest := .simulated "Harvest not configured. Invoice not created.",
             trello := .simulated "Trello not configured. Card not created.",
             zoho := .simulated "Zoho not configured. Contact not upserted.",
             coupon_email := some (.simulated "SMTP not configured. Email not sent."),
             mailchimp := some (.simulated "Mailchimp not configured. Tag not added."),
             thankyou_email := Option.none },
           ⟨[], [], [], [], []⟩) ∧
    anaFields.order_value = 75 ∧
    anaFields.order_value > noConfig.COUPON_THRESHOLD := by
  refine ⟨?_, rfl, ?_⟩
  · with_unfolding_all rfl
  · show (75 : Rat) > 50
    norm_num

/-- Claim C2: the notification branch is decided by the strict comparison
`order_value > COUPON_THRESHOLD`: a value exactly equal to the threshold
takes the thank-you branch with no Mailchimp tagging call, and the coupon
branch is only ever taken for strictly greater values. -/
theorem C2_threshold_boundary (cfg : Config) (net : Net) (order : List (String × PyVal))
    (f : NormalizedFields) (hf : extract_fields order = .ok f) :
    (f.order_value = cfg.COUPON_THRESHOLD →
      ∃ pr cs, process_order cfg net order = .ok (pr, cs) ∧
        pr.thankyou_email.isSome = true ∧ pr.coupon_email = Option.none ∧
        pr.mailchimp = Option.none ∧ cs.mailchimp = []) ∧
    (∀ pr cs, process_order cfg net order = .ok (pr, cs) →
      pr.coupon_email.isSome = true → f.order_value > cfg.COUPON_THRESHOLD) := by
  constructor
  · intro heq
    have hnot : ¬ f.order_value > cfg.COUPON_THRESHOLD := by
      rw [heq]; exact lt_irrefl _
    simp only [process_order, hf]
    rw [if_neg hnot]
    exact ⟨_, _, rfl, rfl, rfl, rfl, rfl⟩
  · intro pr cs h hcoupon
    by_cases hgt : f.order_value > cfg.COUPON_THRESHOLD
    · exact hgt
    · exfalso
      simp only [process_order, hf] at h
      rw [if_neg hgt] at h
      injection h with h2
      injection h2 with hpr hcs
      subst hpr
      simp at hcoupon

/-- Witness for C2 at the 50.00 order against the default threshold 50. -/
theorem C2_witness :
    fields50.order_value = noConfig.COUPON_THRESHOLD ∧
    (∃ pr cs, process_order noConfig netDown order50 = .ok (pr, cs) ∧
      pr.thankyou_email.isSome = true ∧ pr.coupon_email = Option.none ∧
      pr.mailchimp = Option.none ∧ cs.mailchimp = []) := by
  refine ⟨rfl, ?_⟩
  exact (C2_threshold_boundary noConfig netDown order50 fields50
    (by with_unfolding_all rfl)).1 rfl

/-- Counterexample to claim C6 as stated: the claim quantifies over every
Order, but on an order whose price is a truthy unparsable string the field
extraction raises, `process_order` propagates the exception, and zero
emails are attempted — no ProcessingResult with an email entry exists. -/
theorem C6_counterexample :
    process_order noConfig netDown [("current_total_price", PyVal.str "abc")] =
      .error "ValueError: could not convert string to float" := by
  rfl

/-- Claim C6 (amended): whenever `process_order` returns a
ProcessingResult, that result contains exactly one of the two email
attempts — the coupon entry is filled exactly when the thank-you entry is
not, and exactly when the extracted value strictly exceeds the threshold;
on the orders where processing instead raises (see the counterexample) no
email attempt is guaranteed at all. -/
theorem C6_exactly_one_email (cfg : Config) (net : Net) (order : List (String × PyVal))
    (pr : ProcessingResult) (cs : Calls)
    (h : process_order cfg net order = .ok (pr, cs)) :
    ((pr.coupon_email.isSome = true ∧ pr.thankyou_email = Option.none) ∨
     (pr.coupon_email = Option.none ∧ pr.thankyou_email.isSome = true)) ∧
    (pr.coupon_email.isSome = true ↔ pr.fields.order_value > cfg.COUPON_THRESHOLD) := by
  cases hx : extract_fields order with
  | error e => rw [process_order, hx] at h; cases h
  | ok f =>
    simp only [process_order, hx] at h
    by_cases hgt : f.order_value > cfg.COUPON_THRESHOLD
    · rw [if_pos hgt] at h
      cases hmc : mailchimp_add_tag cfg net.mailchimp f cfg.MAILCHIMP_HIGH_ORDER_TAG with
      | error e => rw [hmc] at h; cases h
      | ok mc =>
        simp only [hmc] at h
        injection h with h2
        injection h2 with hpr hcs
        subst hpr
        exact ⟨Or.inl ⟨rfl, rfl⟩, ⟨fun _ => hgt, fun _ => rfl⟩⟩
    · rw [if_neg hgt] at h
      injection h with h2
      injection h2 with hpr hcs
      subst hpr
      refine ⟨Or.inr ⟨rfl, rfl⟩, ⟨fun hc => ?_, fun hv => absurd hv hgt⟩⟩
      simp at hc

/-- Witness for C6 at the walked-through scenario order. -/
theorem C6_witness :
    (process_order noConfig netDown anaOrder).isOk = true ∧
    ((∃ pr cs, process_order noConfig netDown anaOrder = .ok (pr, cs) ∧
      pr.coupon_email.isSome = true ∧ pr.thankyou_email = Option.none)) := by
  have h0 : process_order noConfig netDown anaOrder =
      .ok ({ fields := anaFields,
             harvest := .simulated "Harvest not configured. Invoice not created.",
             trello := .simulated "Trello not configured. Card not created.",
             zoho := .simulated "Zoho not configured. Contact not upserted.",
             coupon_email := some (.simulated "SMTP not configured. Email not sent."),
             mailchimp := some (.simulated "Mailchimp not configured. Tag not added."),
             thankyou_email := Option.none },
           ⟨[], [], [], [], []⟩) := by
    with_unfolding_all rfl
  have h := C6_exactly_one_email noConfig netDown anaOrder _ _ h0
  rcases h.1 with ⟨hc, ht⟩ | ⟨hc, ht⟩
  · exact ⟨by rw [h0]; rfl, ⟨_, _, h0, hc, ht⟩⟩
  · cases hc

/-- `emailOk f`: the customer email is a string or falsy; the shapes on
which Mailchimp tagging cannot raise. -/
def emailOk (f : NormalizedFields) : Prop :=
  (∃ t, f.customer_email = PyVal.str t) ∨ f.customer_email.truthy = false

/-- Counterexample to claim C1 as stated: for the high-value order whose
customer email is a truthy number, with Mailchimp configured, the tagging
step raises, `process_order` propagates the exception and NO
ProcessingResult is produced at all, although the invoice, task-card, CRM
and coupon-email integrations were all attempted: their results are lost
rather than reported. -/
theorem C1_counterexample :
    process_order mailchimpOnlyConfig netDown badEmailOrder =
      .error "AttributeError: lower" := by
  with_unfolding_all rfl

/-- Claim C1 (amended): for every order whose field extraction succeeds and
whose extracted email is a string or falsy (so that the Mailchimp tagging
step cannot raise), `process_order` runs every adapter in the fixed
sequence and returns one result per integration attempted — the harvest,
trello and zoho entries are exactly the standalone adapter results, which
depend only on the configuration, the network and the extracted fields,
never on another adapter's outcome, and the branch fills in its email (and,
when high-value, tagging) result. -/
theorem C1_runs_all_adapters (cfg : Config) (net : Net) (order : List (String × PyVal))
    (f : NormalizedFields) (hf : extract_fields order = .ok f) (he : emailOk f) :
    ∃ pr cs, process_order cfg net order = .ok (pr, cs) ∧
      pr.fields = f ∧
      pr.harvest = (create_harvest_invoice cfg net.harvest f).1 ∧
      pr.trello = (create_trello_card cfg net.trello f).1 ∧
      pr.zoho = (upsert_zoho_contact cfg net.zoho f).1 ∧
      ((f.order_value > cfg.COUPON_THRESHOLD ∧
        pr.coupon_email = some (send_email_smtp cfg net.smtp
          (pyOr f.customer_email (PyVal.str ""))
          "Your Shopify order - coupon" (coupon_message cfg f)).1 ∧
        (∃ mc, mailchimp_add_tag cfg net.mailchimp f cfg.MAILCHIMP_HIGH_ORDER_TAG = .ok mc ∧
          pr.mailchimp = some mc.1) ∧
        pr.thankyou_email = Option.none) ∨
       (¬ f.order_value > cfg.COUPON_THRESHOLD ∧
        pr.thankyou_email = some (send_email_smtp cfg net.smtp
          (pyOr f.customer_email (PyVal.str ""))
          "Your Shopify order - thank you" (thankyou_message f)).1 ∧
        pr.coupon_email = Option.none ∧ pr.mailchimp = Option.none)) := by
  by_cases hgt : f.order_value > cfg.COUPON_THRESHOLD
  · obtain ⟨mc, hmc⟩ := mailchimp_total cfg net.mailchimp f cfg.MAILCHIMP_HIGH_ORDER_TAG he
    simp only [process_order, hf]
    rw [if_pos hgt]
    simp only [hmc]
    exact ⟨_, _, rfl, rfl, rfl, rfl, rfl,
      Or.inl ⟨hgt, rfl, ⟨mc, rfl, rfl⟩, rfl⟩⟩
  · simp only [process_order, hf]
    rw [if_neg hgt]
    exact ⟨_, _, rfl, rfl, rfl, rfl, rfl,
      Or.inr ⟨hgt, rfl, rfl, rfl⟩⟩

/-- Witness for C1 at the walked-through scenario order. -/
theorem C1_witness :
    ∃ pr cs, process_order noConfig netDown anaOrder = .ok (pr, cs) ∧
      pr.fields = anaFields ∧
      pr.harvest = (create_harvest_invoice noConfig netDown.harvest anaFields).1 := by
  obtain ⟨pr, cs, h1, h2, h3, _⟩ :=
    C1_runs_all_adapters noConfig netDown anaOrder anaFields
      (by with_unfolding_all rfl) (Or.inl ⟨"a@x.com", rfl⟩)
  exact ⟨pr, cs, h1, h2, h3⟩

/-! ## Totality and inversion of `extract_fields` -/

/-- A value in an object position that extraction handles without raising:
falsy (replaced by the empty dict by the `or` guard) or a dict. -/
def objOk (v : PyVal) : Prop := v.truthy = false ∨ ∃ fs, v = PyVal.dict fs

/-- A price value that extraction handles without raising: falsy (so the
`or 0` guard makes the value 0) or convertible by `float(...)`. -/
def priceOk (v : PyVal) : Prop := v.truthy = false ∨ ∃ q, pyFloat v = .ok q

theorem pyOr_obj (v : PyVal) (h : objOk v) :
    ∃ fs, pyOr v (PyVal.dict []) = PyVal.dict fs := by
  rcases h with hf | ⟨fs, rfl⟩
  · exact ⟨[], pyOr_of_falsy _ _ hf⟩
  · cases hfs : (PyVal.dict fs).truthy with
    | false => exact ⟨[], pyOr_of_falsy _ _ hfs⟩
    | true => exact ⟨fs, pyOr_of_truthy _ _ hfs⟩

theorem get_phone_ok (cfs : List (String × PyVal))
    (h : objOk (dictGet cfs "default_address")) :
    ∃ p, get_phone (PyVal.dict cfs) = .ok p := by
  cases hda : (dictGet cfs "default_address").truthy with
  | false => exact ⟨PyVal.none, by simp [get_phone, hda]⟩
  | true =>
    rcases h with hf | ⟨dfs, hdfs⟩
    · rw [hf] at hda; cases hda
    · rw [hdfs] at hda
      refine ⟨dictGet dfs "phone", ?_⟩
      simp [get_phone, hdfs, hda, pyOr_of_truthy _ _ hda]

/-- `extract_fields` evaluated: once the two object positions are dicts,
the phone lookup returns and the price converts, the result is the record
of defaulted lookups. -/
theorem extract_fields_ok (order : List (String × PyVal)) (cfs sfs : List (String × PyVal))
    (hc : pyOr (dictGetD order "customer" (PyVal.dict [])) (PyVal.dict []) = PyVal.dict cfs)
    (hs : pyOr (dictGetD order "shipping_address" (PyVal.dict [])) (PyVal.dict []) =
      PyVal.dict sfs)
    (p : PyVal) (hph : get_phone (PyVal.dict cfs) = .ok p)
    (q : Rat)
    (hq : pyFloat (pyOr (dictGetD order "current_total_price" (PyVal.num 0)) (PyVal.num 0)) =
      .ok q) :
    extract_fields order = .ok
      ⟨p, dictGet sfs "zip", q,
       pyOr (dictGet cfs "first_name") (PyVal.str ""),
       pyOr (dictGet cfs "last_name") (PyVal.str ""),
       pyOr (dictGet cfs "email") (PyVal.str ""),
       pyOr (dictGet sfs "country") (PyVal.str ""),
       pyOr (dictGet sfs "address1") (PyVal.str ""),
       pyOr (dictGet sfs "city") (PyVal.str ""),
       pyOr (dictGet sfs "province") (PyVal.str ""),
       pyOr (dictGet order "order_number") (dictGet order "id"),
       dictGet order "order_status_url", dictGet order "currency",
       dictGet order "processed_at"⟩ := by
  simp only [extract_fields]
  rw [hc, hs]
  simp only [PyVal.get_dict, hph, hq, ebind_ok]

/-- Inversion: a successful extraction forces both object positions to be
dicts, the phone lookup and price conversion to return, and determines
every field of the result. -/
theorem extract_fields_inv (order : List (String × PyVal)) (f : NormalizedFields)
    (hok : extract_fields order = .ok f) :
    ∃ cfs sfs p q,
      pyOr (dictGetD order "customer" (PyVal.dict [])) (PyVal.dict []) = PyVal.dict cfs ∧
      pyOr (dictGetD order "shipping_address" (PyVal.dict [])) (PyVal.dict []) =
        PyVal.dict sfs ∧
      get_phone (PyVal.dict cfs) = .ok p ∧
      pyFloat (pyOr (dictGetD order "current_total_price" (PyVal.num 0)) (PyVal.num 0)) =
        .ok q ∧
      f = ⟨p, dictGet sfs "zip", q,
        pyOr (dictGet cfs "first_name") (PyVal.str ""),
        pyOr (dictGet cfs "last_name") (PyVal.str ""),
        pyOr (dictGet cfs "email") (PyVal.str ""),
        pyOr (dictGet sfs "country") (PyVal.str ""),
        pyOr (dictGet sfs "address1") (PyVal.str ""),
        pyOr (dictGet sfs "city") (PyVal.str ""),
        pyOr (dictGet sfs "province") (PyVal.str ""),
        pyOr (dictGet order "order_number") (dictGet order "id"),
        dictGet order "order_status_url", dictGet order "currency",
        dictGet order "processed_at"⟩ := by
  simp only [extract_fields] at hok
  cases hcv : pyOr (dictGetD order "customer" (PyVal.dict [])) (PyVal.dict []) with
  | none => rw [hcv] at hok; simp [get_phone, PyVal.get] at hok
  | str s => rw [hcv] at hok; simp [get_phone, PyVal.get] at hok
  | num q0 => rw [hcv] at hok; simp [get_phone, PyVal.get] at hok
  | bool b => rw [hcv] at hok; simp [get_phone, PyVal.get] at hok
  | list xs => rw [hcv] at hok; simp [get_phone, PyVal.get] at hok
  | dict cfs =>
    rw [hcv] at hok
    cases hph : get_phone (PyVal.dict cfs) with
    | error e => rw [hph] at hok; simp at hok
    | ok p =>
      rw [hph, ebind_ok] at hok
      cases hsv : pyOr (dictGetD order "shipping_address" (PyVal.dict [])) (PyVal.dict []) with
      | none => rw [hsv] at hok; simp [PyVal.get] at hok
      | str s => rw [hsv] at hok; simp [PyVal.get] at hok
      | num q0 => rw [hsv] at hok; simp [PyVal.get] at hok
      | bool b => rw [hsv] at hok; simp [PyVal.get] at hok
      | list xs => rw [hsv] at hok; simp [PyVal.get] at hok
      | dict sfs =>
        rw [hsv] at hok
        cases hq : pyFloat (pyOr (dictGetD order "current_total_price" (PyVal.num 0))
            (PyVal.num 0)) with
        | error e => simp only [PyVal.get_dict, ebind_ok, hq, ebind_err] at hok; cases hok
        | ok q =>
          simp only [PyVal.get_dict, ebind_ok, hq] at hok
          injection hok with h2
          exact ⟨cfs, sfs, p, q, rfl, rfl, hph, rfl, h2.symm⟩

/-- The CRM contact record maps a null phone or zip field to the empty
string (through the `or` default) before it is posted. -/
theorem zoho_null_to_empty (f : NormalizedFields) :
    (f.customer_phone = PyVal.none →
      (zoho_contact_data f).lookup "Phone" = some (PyVal.str "")) ∧
    (f.customer_zipcode = PyVal.none →
      (zoho_contact_data f).lookup "Mailing_Zip" = some (PyVal.str "")) := by
  constructor
  · intro h
    rw [show (zoho_contact_data f).lookup "Phone" =
      some (pyOr f.customer_phone (PyVal.str "")) from rfl, h]
    rfl
  · intro h
    rw [show (zoho_contact_data f).lookup "Mailing_Zip" =
      some (pyOr f.customer_zipcode (PyVal.str "")) from rfl, h]
    rfl

/-- Counterexample to claim C3 as stated: an order whose
"current_total_price" is present but not parsable as a number makes
`extract_fields` raise a `ValueError` (the `or 0` guard only catches falsy
values, and `float("abc")` raises) instead of extracting 0. -/
theorem C3_counterexample :
    extract_fields [("current_total_price", PyVal.str "abc")] =
      .error "ValueError: could not convert string to float" := by
  rfl

/-- Claim C3 (amended): `extract_fields` does not raise — and a falsy
(absent, null, empty-string, zero) price yields `order_value` 0 — provided
the "current_total_price" value is falsy or numerically parsable and the
`customer`, `shipping_address` and `default_address` values are each falsy,
absent or objects; a truthy unparsable price (see the counterexample), like
a truthy non-object in an object position, instead raises out of
extraction. -/
theorem C3_extraction_total (order : List (String × PyVal))
    (hc : objOk (dictGetD order "customer" (PyVal.dict [])))
    (hs : objOk (dictGetD order "shipping_address" (PyVal.dict [])))
    (hda : ∀ cfs, pyOr (dictGetD order "customer" (PyVal.dict [])) (PyVal.dict []) =
      PyVal.dict cfs → objOk (dictGet cfs "default_address"))
    (hp : priceOk (dictGetD order "current_total_price" (PyVal.num 0))) :
    ∃ f, extract_fields order = .ok f ∧
      ((dictGetD order "current_total_price" (PyVal.num 0)).truthy = false →
        f.order_value = 0) := by
  obtain ⟨cfs, hcfs⟩ := pyOr_obj _ hc
  obtain ⟨sfs, hsfs⟩ := pyOr_obj _ hs
  obtain ⟨p, hph⟩ := get_phone_ok cfs (hda cfs hcfs)
  cases hpt : (dictGetD order "current_total_price" (PyVal.num 0)).truthy with
  | false =>
    have hq : pyFloat (pyOr (dictGetD order "current_total_price" (PyVal.num 0))
        (PyVal.num 0)) = .ok 0 := by
      rw [pyOr_of_falsy _ _ hpt]; rfl
    exact ⟨_, extract_fields_ok order cfs sfs hcfs hsfs p hph 0 hq, fun _ => rfl⟩
  | true =>
    rcases hp with hf | ⟨q, hq0⟩
    · simp [hf] at hpt
    · have hq : pyFloat (pyOr (dictGetD order "current_total_price" (PyVal.num 0))
          (PyVal.num 0)) = .ok q := by
        rw [pyOr_of_truthy _ _ hpt]; exact hq0
      refine ⟨_, extract_fields_ok order cfs sfs hcfs hsfs p hph q hq, fun hcon => ?_⟩
      simp at hcon

/-- The order of the C3 witness: a falsy (empty-string) price and a null
customer object. -/
def blankPriceOrder : List (String × PyVal) :=
  [("current_total_price", PyVal.str ""), ("customer", PyVal.none)]

/-- Witness for C3 at a falsy price and null customer. -/
theorem C3_witness :
    ∃ f, extract_fields blankPriceOrder = .ok f ∧
      ((dictGetD blankPriceOrder "current_total_price" (PyVal.num 0)).truthy = false →
        f.order_value = 0) := by
  refine C3_extraction_total blankPriceOrder (Or.inl rfl) (Or.inl rfl)
    (fun cfs h => ?_) (Or.inl rfl)
  have h2 : PyVal.dict [] = PyVal.dict cfs := h
  injection h2 with h3
  subst h3
  exact Or.inl rfl

/-- Counterexample to claim C4 as stated: on the order that lacks both
nested objects entirely, the extracted `customer_phone` and
`customer_zipcode` are null (`None`), not empty strings or zero. -/
theorem C4_counterexample :
    extract_fields ([] : List (String × PyVal)) = .ok nfEmpty ∧
    nfEmpty.customer_phone = PyVal.none ∧ nfEmpty.customer_zipcode = PyVal.none := by
  exact ⟨by with_unfolding_all rfl, rfl, rfl⟩

/-- Claim C4 (amended): for every order that lacks the `customer` object
entirely, the extracted name and email fields default to the empty string
and `customer_phone` to null; for every order that lacks
`shipping_address` entirely, the address fields default to the empty
string and `customer_zipcode` to null; and the CRM adapter (the only
consumer of phone and zip) replaces null by the empty string in its
contact payload, so no null propagates into an outbound call. -/
theorem C4_missing_objects_default (order : List (String × PyVal)) (f : NormalizedFields)
    (hok : extract_fields order = .ok f) :
    (order.lookup "customer" = Option.none →
      f.customer_firstname = PyVal.str "" ∧ f.customer_lastname = PyVal.str "" ∧
      f.customer_email = PyVal.str "" ∧ f.customer_phone = PyVal.none) ∧
    (order.lookup "shipping_address" = Option.none →
      f.customer_country = PyVal.str "" ∧ f.customer_street = PyVal.str "" ∧
      f.customer_city = PyVal.str "" ∧ f.customer_province = PyVal.str "" ∧
      f.customer_zipcode = PyVal.none) ∧
    (f.customer_phone = PyVal.none →
      (zoho_contact_data f).lookup "Phone" = some (PyVal.str "")) ∧
    (f.customer_zipcode = PyVal.none →
      (zoho_contact_data f).lookup "Mailing_Zip" = some (PyVal.str "")) := by
  obtain ⟨cfs, sfs, p, q, hcv, hsv, hph, hq, hf⟩ := extract_fields_inv order f hok
  subst hf
  refine ⟨fun hcust => ?_, fun hship => ?_,
    (zoho_null_to_empty _).1, (zoho_null_to_empty _).2⟩
  · have hcd : dictGetD order "customer" (PyVal.dict []) = PyVal.dict [] := by
      simp [dictGetD, hcust]
    rw [hcd] at hcv
    have h2 : PyVal.dict ([] : List (String × PyVal)) = PyVal.dict cfs := hcv
    injection h2 with h3
    subst h3
    have hpn : Except.ok PyVal.none = Except.ok p := hph
    injection hpn with h4
    subst h4
    exact ⟨rfl, rfl, rfl, rfl⟩
  · have hsd : dictGetD order "shipping_address" (PyVal.dict []) = PyVal.dict [] := by
      simp [dictGetD, hship]
    rw [hsd] at hsv
    have h2 : PyVal.dict ([] : List (String × PyVal)) = PyVal.dict sfs := hsv
    injection h2 with h3
    subst h3
    exact ⟨rfl, rfl, rfl, rfl, rfl⟩

/-- Witness for C4 at the empty order. -/
theorem C4_witness :
    List.lookup "customer" ([] : List (String × PyVal)) = Option.none ∧
    nfEmpty.customer_firstname = PyVal.str "" ∧ nfEmpty.customer_phone = PyVal.none ∧
    (zoho_contact_data nfEmpty).lookup "Phone" = some (PyVal.str "") := by
  have h := C4_missing_objects_default [] nfEmpty (by with_unfolding_all rfl)
  exact ⟨rfl, (h.1 rfl).1, (h.1 rfl).2.2.2, h.2.2.1 rfl⟩
